import Mathlib

/-!
# Verification of the real-time gateway of `project-chat`

This file embeds, in Lean 4, the parts of the repository that the
specification's claims are about:

* the backend gateway (Connection Registry, Room Index, Presence Tracker,
  Broadcast/Relay Engine, Session Handler).  The repository ships only the
  documentation of this component (`src/backend/PHASE3_COMPLETE.md`); its
  Python implementation (`app/services/connection_manager.py`,
  `app/api/endpoints/websocket.py`) is not part of the source tree, so the
  gateway operations below are modelled from the specification's words and
  each such definition says so in its doc comment;
* the frontend WebSocket hook (`src/frontend/src/hooks/useWebSocket.ts`),
  the WebRTC signalling context (`src/frontend/src/contexts/WebRTCContext.tsx`)
  and the call views that build signalling frames
  (`VideoCallView` in `src/frontend/src/components/views/TodoItem.tsx`).
  These are translated directly from the TypeScript source.
-/

namespace Gateway

/-- Connection ids are opaque strings (UUIDs in the implementation). -/
abbrev ConnId := String

/-- User ids are opaque strings. -/
abbrev UserId := String

/-- A room key: `channel:{channelId}` or `dm:{a}:{b}`. -/
abbrev RoomKey := String

/-- Per-connection identity kept by the Connection Registry
(`connection_metadata` in the documented `ConnectionManager`). -/
structure ConnInfo where
  userId : UserId
  displayName : String
deriving DecidableEq, Repr

/-- Find the value bound to a key in an association list. -/
def assocFind {α : Type} (l : List (String × α)) (k : String) : Option α :=
  match l with
  | [] => none
  | p :: t => if p.1 = k then some p.2 else assocFind t k

/-- Modelled from the spec: the gateway's two shared mutable structures —
the Connection Registry (`connectionId → identity`) and the Room Index
(`room key → set of connection ids currently subscribed`).  The Python
implementation is absent from the source tree; the documentation
(`PHASE3_COMPLETE.md`, "Connection Manager Architecture") lists the
corresponding dictionaries `connection_metadata` and
`channel_subscriptions`/`dm_subscriptions`. -/
structure GatewayState where
  registry : List (ConnId × ConnInfo)
  rooms : List (RoomKey × List ConnId)
deriving Repr

/-- The gateway starts with no connections and no rooms
("rooms are never pre-created"). -/
def initState : GatewayState := ⟨[], []⟩

/-- `membersOf(roomKey) -> set of connectionId` (Room Index contract, §4.2):
the set of connection ids subscribed to the room, empty when the room has
no index entry. -/
def membersOf (s : GatewayState) (r : RoomKey) : List ConnId :=
  (assocFind s.rooms r).getD []

/-- Whether a connection id is present in the Connection Registry. -/
def registryHas (s : GatewayState) (c : ConnId) : Prop :=
  (assocFind s.registry c).isSome

instance (s : GatewayState) (c : ConnId) : Decidable (registryHas s c) := by
  unfold registryHas; infer_instance

/-- Replace (or create) a room's index entry. -/
def setRoom (rooms : List (RoomKey × List ConnId)) (r : RoomKey)
    (m : List ConnId) : List (RoomKey × List ConnId) :=
  (r, m) :: rooms.filter (fun p => p.1 ≠ r)

/-- Delete a room's index entry. -/
def delRoom (rooms : List (RoomKey × List ConnId)) (r : RoomKey) :
    List (RoomKey × List ConnId) :=
  rooms.filter (fun p => p.1 ≠ r)

/-- Modelled from the spec: `register(connectionId, userId, displayName)`
(Connection Registry contract, §4.1).  Registration fails with
`DuplicateConnection` when the id is already present ("should never happen
given unique id generation"); the failure leaves the state unchanged. -/
def register (s : GatewayState) (c : ConnId) (info : ConnInfo) : GatewayState :=
  if (assocFind s.registry c).isSome then s
  else { s with registry := (c, info) :: s.registry }

/-- Add a connection id to a room's member set (sets do not hold
duplicates). -/
def joinMembers (prev : List ConnId) (c : ConnId) : List ConnId :=
  if c ∈ prev then prev else c :: prev

/-- Modelled from the spec: `join(roomKey, connectionId)` (Room Index
contract, §4.2): "adds connectionId to the room's set; if this is the first
member, the room entry is created.  Returns the previous occupant set". -/
def join (s : GatewayState) (r : RoomKey) (c : ConnId) :
    GatewayState × List ConnId :=
  ({ s with rooms := setRoom s.rooms r (joinMembers (membersOf s r) c) },
   membersOf s r)

/-- Modelled from the spec: `leave(roomKey, connectionId)` (Room Index
contract, §4.2): "removes the connection; if the set becomes empty, the room
entry is deleted (garbage collection — rooms are never pre-created or
retained empty)". -/
def leave (s : GatewayState) (r : RoomKey) (c : ConnId) : GatewayState :=
  if ((membersOf s r).filter (fun x => x ≠ c)).isEmpty then
    { s with rooms := delRoom s.rooms r }
  else
    { s with rooms := setRoom s.rooms r ((membersOf s r).filter (fun x => x ≠ c)) }

/-- Remove a connection from every room entry that holds it, deleting
entries whose member set becomes empty — the Room Index side of
`unregister` ("removal from Registry must atomically remove it from its
room", §3, with `leave`'s garbage collection, §4.2). -/
def detachConn (rooms : List (RoomKey × List ConnId)) (c : ConnId) :
    List (RoomKey × List ConnId) :=
  rooms.filterMap (fun p =>
    let m := p.2.filter (fun x => x ≠ c)
    if m.isEmpty then none else some (p.1, m))

/-- Modelled from the spec: `unregister(connectionId)` (Connection Registry
contract, §4.1): "idempotent; removing an unknown id is a no-op", with the
side effect that it "must notify the Room Index to detach the connection
from its room, which may trigger a room-empty cleanup". -/
def unregister (s : GatewayState) (c : ConnId) : GatewayState :=
  { registry := s.registry.filter (fun p => p.1 ≠ c),
    rooms := detachConn s.rooms c }

/-- One operation on the shared gateway state. -/
inductive Op where
  | register (c : ConnId) (info : ConnInfo)
  | unregister (c : ConnId)
  | join (r : RoomKey) (c : ConnId)
  | leave (r : RoomKey) (c : ConnId)
deriving Repr

/-- Modelled from the spec: apply one operation.  `Op.join` is performed
only for a connection present in the Registry: the Room Index "depends on
Registry for validity checks" (§2) and the Session Handler performs
`Registry.register` before `RoomIndex.join` (§4.5), so a join request for an
unregistered connection is rejected without touching the index. -/
def applyOp (s : GatewayState) : Op → GatewayState
  | .register c i => register s c i
  | .unregister c => unregister s c
  | .join r c => if (assocFind s.registry c).isSome then (join s r c).1 else s
  | .leave r c => leave s r c

/-- Run a sequence of operations from the empty gateway state. -/
def run (ops : List Op) : GatewayState := ops.foldl applyOp initState

/-- `lookup(connectionId)`'s user-id projection: the user id a connection id
maps to via the Connection Registry, or `none` when absent. -/
def userIdOf (s : GatewayState) (c : ConnId) : Option UserId :=
  (assocFind s.registry c).map ConnInfo.userId

/-- Modelled from the spec: `connectionsForUser(userId) -> set of
connectionId` (Connection Registry contract, §4.1): the ids of every
connection the user currently owns ("used to push events to all of a
user's devices"). -/
def connectionsForUser (s : GatewayState) (u : UserId) : List ConnId :=
  (s.registry.filter (fun p => p.2.userId = u)).map Prod.fst

/-- Modelled from the spec: `onlineUsersInRoom(roomKey) -> set of userId`
(Presence Tracker, §4.3): "map each connectionId in
`Room Index.membersOf(roomKey)` to its userId via the Registry,
deduplicated (one user, multiple devices, counted once)".  Documented as
`get_online_users_in_channel` in `PHASE3_COMPLETE.md`. -/
def onlineUsersInRoom (s : GatewayState) (r : RoomKey) : List UserId :=
  ((membersOf s r).filterMap (userIdOf s)).dedup

/-- An outbound gateway event (§6, "Outbound event shapes").  Payload and
identity fields are carried as strings; optional fields model data that is
available only when persistence succeeded. -/
inductive Event where
  | onlineUsers (users : List UserId) (room : RoomKey)
  | userJoined (userId : UserId) (username : String) (room : RoomKey)
  | userLeft (userId : UserId) (username : String) (room : RoomKey)
  | message (id : Option String) (content : String) (senderId : UserId)
      (room : RoomKey) (createdAt : Option String)
  | signal (kind : String) (fromUserId : UserId) (payload : String)
  | error (msg : String)
deriving DecidableEq, Repr

/-- Modelled from the spec: the signalling dispatch of the Session Handler
(§4.5) on top of `relayToUser` (§4.4): push the signal, with the sender's
identity attached, to every connection owned by the target user; "if the
target has no connections, emit an error event back to the sender" — the
signal is not queued and the shared state is left untouched (`TargetOffline`
is recoverable, §7).  Documented as `relay_webrtc_signal` in
`PHASE3_COMPLETE.md`.  The result pairs the unchanged state with the list
of (destination connection, event) deliveries. -/
def relaySignal (s : GatewayState) (senderConn : ConnId) (kind : String)
    (targetUser : UserId) (payload : String) :
    GatewayState × List (ConnId × Event) :=
  if (connectionsForUser s targetUser).isEmpty then
    (s, [(senderConn, Event.error "Target user is offline")])
  else
    (s, (connectionsForUser s targetUser).map (fun c =>
      (c, Event.signal kind ((userIdOf s senderConn).getD "") payload)))

/-- Outcome of the external collaborator
`persistMessage(roomKey, userId, content) -> messageId, createdAt` (§6);
persistence is best-effort and may fail (`PersistenceFailure`, §7). -/
inductive PersistResult where
  | ok (messageId : String) (createdAt : String)
  | failed
deriving DecidableEq, Repr

/-- Modelled from the spec: the chat-message dispatch of the Session Handler
(§4.5: "chat message → persist via external collaborator, then
`broadcastToRoom`") under the error policy of §7: on `PersistenceFailure`
"the chat message is still broadcast in-memory ... the error is logged; the
gateway does not roll back a broadcast because persistence failed".  The
message event is pushed to every connection subscribed to the room (the
documented test in `PHASE3_COMPLETE.md` shows the sender receiving its own
message back, so no sender exclusion is applied); the id and timestamp
fields are taken from persistence when it succeeded. -/
def handleChatMessage (s : GatewayState) (senderConn : ConnId)
    (room : RoomKey) (content : String) (persist : PersistResult) :
    List (ConnId × Event) :=
  let sender := (userIdOf s senderConn).getD ""
  let ev := match persist with
    | .ok mid ts => Event.message (some mid) content sender room (some ts)
    | .failed => Event.message none content sender room none
  (membersOf s room).map (fun c => (c, ev))

/-- Modelled from the spec: the connection-attempt path of the Session
Handler (§4.5, `Connecting → Authenticating → Joined`): extract the token
(`AuthRequired` when absent), validate it with the external `verifyToken`
collaborator (`Unauthorized` on failure), check room access with the
external `authorizeRoomAccess` collaborator (`Forbidden` on failure); all
three failures close the socket with a reason and create no state ("no
partial join state is ever created; join and registration are only
performed after authorization succeeds", §7).  On success:
`Registry.register`, `RoomIndex.join`, a presence snapshot to the new
connection and a `user_joined` broadcast to the previous occupants.  The
result is (new state, deliveries, close reason — `none` when the
connection was accepted). -/
def handleConnect (s : GatewayState) (c : ConnId) (token : Option String)
    (verify : String → Option UserId) (authorize : UserId → RoomKey → Bool)
    (room : RoomKey) (displayName : String) :
    GatewayState × List (ConnId × Event) × Option String :=
  match token with
  | none => (s, [], some "auth_required")
  | some t =>
    match verify t with
    | none => (s, [], some "unauthorized")
    | some u =>
      if authorize u room then
        let s1 := register s c ⟨u, displayName⟩
        let res := join s1 room c
        (res.1,
         (c, Event.onlineUsers (onlineUsersInRoom s1 room) room)
           :: res.2.map (fun pc => (pc, Event.userJoined u displayName room)),
         none)
      else (s, [], some "forbidden")

/-- Modelled from the spec: the DM room key
`dm:{sortedUserIdA}:{sortedUserIdB}` — "canonicalized by sorting the two
user ids so both participants compute the same key" (§3); documented as the
"Sorted key format for 1-on-1 conversations" of `dm_subscriptions` in
`PHASE3_COMPLETE.md`. -/
def dmKey (a b : UserId) : RoomKey :=
  if a ≤ b then "dm:" ++ a ++ ":" ++ b else "dm:" ++ b ++ ":" ++ a

end Gateway

namespace Frontend

/-- The TS `WebSocket.readyState` values (`CONNECTING`, `OPEN`, `CLOSING`,
`CLOSED`). -/
inductive ReadyState where
  | connecting
  | opened
  | closing
  | closed
deriving DecidableEq, Repr

/-- The part of a browser `WebSocket` object the hook's senders inspect. -/
structure WSRef where
  readyState : ReadyState
deriving DecidableEq, Repr

/-- The conversation context kind, `'channel' | 'dm'`
(`src/frontend/src/types/index.ts`). -/
inductive CtxType where
  | channel
  | dm
deriving DecidableEq, Repr

/-- `WebSocketContext` — the hook parameter
`{ type: 'channel' | 'dm', id: string }`
(`src/frontend/src/types/index.ts`). -/
structure WebSocketContext where
  type : CtxType
  id : String
deriving DecidableEq, Repr

/-- The `Message` interface of `src/frontend/src/types/index.ts`. -/
structure Message where
  id : String
  content : String
  senderName : String
  senderId : String
  timestamp : String
  isOwnMessage : Bool
  avatarUrl : Option String
deriving DecidableEq, Repr

/-- The observable state of the `useWebSocket` hook: the `messages` list and
the `isConnected` flag it returns, together with the `wsRef` / `contextRef`
refs its senders read (`src/frontend/src/hooks/useWebSocket.ts`, lines
35-39). -/
structure HookState where
  messages : List Message
  isConnected : Bool
  ws : Option WSRef
  context : Option WebSocketContext
deriving DecidableEq, Repr

/-- The chat frame `JSON.stringify`-ed by `sendMessage`:
`{ type, content }`. -/
structure ChatFrame where
  type : String
  content : String
deriving DecidableEq, Repr

/-- Embedded from `sendMessage` in `src/frontend/src/hooks/useWebSocket.ts`
(lines 202-216): when `wsRef.current` exists and its `readyState` is
`WebSocket.OPEN`, build `{ type: 'message', content }`, override the type to
`'dm_message'` when `contextRef.current?.type === 'dm'`, and send it;
otherwise only `console.error` runs — no frame is sent and no state is
updated.  The result pairs the (unchanged) hook state with the frame sent,
if any. -/
def sendMessage (st : HookState) (content : String) :
    HookState × Option ChatFrame :=
  match st.ws with
  | some w =>
    if w.readyState = ReadyState.opened then
      let t := if (st.context.map WebSocketContext.type) = some CtxType.dm
        then "dm_message" else "message"
      (st, some { type := t, content := content })
    else (st, none)
  | none => (st, none)

/-- `WebRTCSignal` from `src/frontend/src/contexts/WebRTCContext.tsx`
(lines 17-22): `{ type, senderId, targetId, data }`, where `data` is the
opaque session description / ICE candidate (kept here as its serialized
text). -/
structure WebRTCSignal where
  type : String
  senderId : String
  targetId : String
  data : String
deriving DecidableEq, Repr

/-- `JSON.stringify` of a `WebRTCSignal` object: a JSON object whose keys
are exactly the object's own property names, in declaration order. -/
def WebRTCSignal.toJson (sg : WebRTCSignal) : List (String × String) :=
  [("type", sg.type), ("senderId", sg.senderId),
   ("targetId", sg.targetId), ("data", sg.data)]

/-- Embedded from the `sendSignal` closure registered by the hook
(`src/frontend/src/hooks/useWebSocket.ts`, lines 222-232): when
`wsRef.current` exists and is `OPEN`, transmit `JSON.stringify(signal)`
unchanged; otherwise only `console.error` runs — nothing is sent and no
state is updated. -/
def sendSignal (st : HookState) (signal : WebRTCSignal) :
    HookState × Option (List (String × String)) :=
  match st.ws with
  | some w =>
    if w.readyState = ReadyState.opened then (st, some signal.toJson)
    else (st, none)
  | none => (st, none)

/-- Embedded from the `sendOffer` signalling callback of `VideoCallView`
(`src/frontend/src/components/views/TodoItem.tsx`, lines 136-143). -/
def videoCallSendOffer (userId : String) (offer : String) : WebRTCSignal :=
  { type := "webrtc_offer", senderId := "current_user",
    targetId := userId, data := offer }

/-- Embedded from the `sendAnswer` signalling callback of `VideoCallView`
(`src/frontend/src/components/views/TodoItem.tsx`, lines 144-151). -/
def videoCallSendAnswer (userId : String) (answer : String) : WebRTCSignal :=
  { type := "webrtc_answer", senderId := "current_user",
    targetId := userId, data := answer }

/-- Embedded from the `sendIceCandidate` signalling callback of
`VideoCallView` (`src/frontend/src/components/views/TodoItem.tsx`, lines
152-159). -/
def videoCallSendIceCandidate (userId : String) (candidate : String) :
    WebRTCSignal :=
  { type := "webrtc_ice_candidate", senderId := "current_user",
    targetId := userId, data := candidate }

end Frontend

namespace Gateway

/-- A small concrete gateway state used to evaluate the model: alice is
connected from two devices (`c1`, `c2`) and bob from one (`c3`), all three
connections subscribed to `channel:general`; charlie has no connection. -/
def demoState : GatewayState :=
  { registry := [("c1", ⟨"alice", "Alice"⟩), ("c2", ⟨"alice", "Alice"⟩),
                 ("c3", ⟨"bob", "Bob"⟩)],
    rooms := [("channel:general", ["c1", "c2", "c3"])] }

/-- The structural invariant of the shared gateway state: every connection
id held by any room entry is present in the Connection Registry, and no
room entry has an empty member set. -/
def Inv (s : GatewayState) : Prop :=
  (∀ p ∈ s.rooms, ∀ c ∈ p.2, registryHas s c) ∧ (∀ p ∈ s.rooms, p.2 ≠ [])

/-- A concrete operation sequence used to evaluate the model: two of
alice's devices register and join `channel:general`. -/
def demoOps : List Op :=
  [.register "c1" ⟨"alice", "Alice"⟩, .register "c2" ⟨"alice", "Alice"⟩,
   .join "channel:general" "c1", .join "channel:general" "c2"]

end Gateway

namespace Frontend

/-- A hook state whose socket is `OPEN` in a DM conversation context. -/
def dmHookState : HookState :=
  { messages := [], isConnected := true, ws := some ⟨ReadyState.opened⟩,
    context := some ⟨CtxType.dm, "user-b"⟩ }

/-- A hook state whose socket is `OPEN` in a channel conversation
context. -/
def channelHookState : HookState :=
  { messages := [], isConnected := true, ws := some ⟨ReadyState.opened⟩,
    context := some ⟨CtxType.channel, "general"⟩ }

/-- A hook state whose socket has reached `CLOSED`. -/
def closedHookState : HookState :=
  { messages := [], isConnected := false, ws := some ⟨ReadyState.closed⟩,
    context := some ⟨CtxType.channel, "general"⟩ }

end Frontend

namespace Gateway

theorem assocFind_cons {α : Type} (p : String × α) (t : List (String × α))
    (k : String) :
    assocFind (p :: t) k = if p.1 = k then some p.2 else assocFind t k := rfl

theorem assocFind_mem {α : Type} {l : List (String × α)} {k : String} {v : α}
    (h : assocFind l k = some v) : (k, v) ∈ l := by
  induction l with
  | nil => simp [assocFind] at h
  | cons p t ih =>
    rw [assocFind_cons] at h
    by_cases hp : p.1 = k
    · rw [if_pos hp] at h
      obtain ⟨k', v'⟩ := p
      obtain rfl : v' = v := by simpa using h
      obtain rfl : k' = k := hp
      exact List.mem_cons_self _ _
    · rw [if_neg hp] at h
      exact List.mem_cons_of_mem _ (ih h)

theorem mem_membersOf {s : GatewayState} {r : RoomKey} {c : ConnId}
    (h : c ∈ membersOf s r) : ∃ m, (r, m) ∈ s.rooms ∧ c ∈ m := by
  unfold membersOf at h
  cases hf : assocFind s.rooms r with
  | none => rw [hf] at h; simp at h
  | some m => exact ⟨m, assocFind_mem hf, by rw [hf] at h; simpa using h⟩

theorem assocFind_filter_ne {α : Type} (l : List (String × α)) (c k : String)
    (hk : k ≠ c) :
    assocFind (l.filter (fun p => p.1 ≠ c)) k = assocFind l k := by
  induction l with
  | nil => rfl
  | cons p t ih =>
    by_cases hp : p.1 = c
    · rw [List.filter_cons_of_neg (by simpa using hp)]
      rw [ih, assocFind_cons, if_neg (by rw [hp]; exact fun h => hk h.symm)]
    · rw [List.filter_cons_of_pos (by simpa using hp)]
      rw [assocFind_cons, assocFind_cons, ih]

theorem registryHas_register {s : GatewayState} {x c : ConnId} {i : ConnInfo}
    (h : registryHas s x) : registryHas (register s c i) x := by
  unfold register
  by_cases hc : (assocFind s.registry c).isSome
  · rw [if_pos hc]; exact h
  · rw [if_neg hc]
    unfold registryHas at *
    rw [assocFind_cons]
    by_cases hx : c = x
    · simp [hx]
    · simpa [hx] using h

theorem registryHas_unregister {s : GatewayState} {x c : ConnId}
    (hx : x ≠ c) (h : registryHas s x) : registryHas (unregister s c) x := by
  unfold registryHas unregister at *
  rw [assocFind_filter_ne _ _ _ hx]
  exact h

theorem mem_detachConn {rooms : List (RoomKey × List ConnId)} {c : ConnId}
    {q : RoomKey × List ConnId} (h : q ∈ detachConn rooms c) :
    ∃ m, (q.1, m) ∈ rooms ∧ q.2 = m.filter (fun x => x ≠ c) ∧ q.2 ≠ [] := by
  unfold detachConn at h
  rw [List.mem_filterMap] at h
  obtain ⟨p, hp, hf⟩ := h
  by_cases he : (p.2.filter (fun x => x ≠ c)).isEmpty
  · simp only [he, if_true] at hf
    exact absurd hf (by simp)
  · simp only [he, if_false, Bool.false_eq_true] at hf
    have hq : q = (p.1, p.2.filter (fun x => x ≠ c)) := by
      cases hf' : hf; rfl
    subst hq
    refine ⟨p.2, by simpa using hp, rfl, ?_⟩
    simpa using he

theorem inv_register {s : GatewayState} (h : Inv s) (c : ConnId)
    (i : ConnInfo) : Inv (register s c i) := by
  obtain ⟨hA, hB⟩ := h
  have hrooms : (register s c i).rooms = s.rooms := by
    unfold register
    by_cases hc : (assocFind s.registry c).isSome
    · rw [if_pos hc]
    · rw [if_neg hc]
  constructor
  · intro p hp x hx
    rw [hrooms] at hp
    exact registryHas_register (hA p hp x hx)
  · intro p hp
    rw [hrooms] at hp
    exact hB p hp

theorem inv_unregister {s : GatewayState} (h : Inv s) (c : ConnId) :
    Inv (unregister s c) := by
  obtain ⟨hA, hB⟩ := h
  constructor
  · intro p hp x hx
    obtain ⟨m, hm, hfil, _⟩ := mem_detachConn hp
    rw [hfil] at hx
    rw [List.mem_filter] at hx
    obtain ⟨hxm, hxc⟩ := hx
    have hxc' : x ≠ c := by simpa using hxc
    exact registryHas_unregister hxc' (hA _ hm x hxm)
  · intro p hp
    obtain ⟨m, _, _, hne⟩ := mem_detachConn hp
    exact hne

theorem mem_joinMembers {prev : List ConnId} {c x : ConnId}
    (hx : x ∈ joinMembers prev c) : x = c ∨ x ∈ prev := by
  unfold joinMembers at hx
  by_cases hcp : c ∈ prev
  · rw [if_pos hcp] at hx; exact Or.inr hx
  · rw [if_neg hcp] at hx
    exact List.mem_cons.mp hx

theorem joinMembers_ne_nil (prev : List ConnId) (c : ConnId) :
    joinMembers prev c ≠ [] := by
  unfold joinMembers
  by_cases hcp : c ∈ prev
  · rw [if_pos hcp]; exact List.ne_nil_of_mem hcp
  · rw [if_neg hcp]; exact List.cons_ne_nil _ _

theorem inv_join {s : GatewayState} (h : Inv s) (r : RoomKey) (c : ConnId)
    (hc : registryHas s c) : Inv (join s r c).1 := by
  obtain ⟨hA, hB⟩ := h
  have hrooms : (join s r c).1.rooms =
      (r, joinMembers (membersOf s r) c) :: s.rooms.filter (fun p => p.1 ≠ r) :=
    rfl
  constructor
  · intro p hp x hx
    show registryHas s x
    rw [hrooms] at hp
    rcases List.mem_cons.mp hp with rfl | hp'
    · rcases mem_joinMembers hx with rfl | hx'
      · exact hc
      · obtain ⟨m, hm, hxm⟩ := mem_membersOf hx'
        exact hA _ hm x hxm
    · exact hA _ (List.mem_of_mem_filter hp') x hx
  · intro p hp
    rw [hrooms] at hp
    rcases List.mem_cons.mp hp with rfl | hp'
    · exact joinMembers_ne_nil _ _
    · exact hB _ (List.mem_of_mem_filter hp')

theorem inv_leave {s : GatewayState} (h : Inv s) (r : RoomKey) (c : ConnId) :
    Inv (leave s r c) := by
  obtain ⟨hA, hB⟩ := h
  unfold leave
  by_cases he : ((membersOf s r).filter (fun x => x ≠ c)).isEmpty
  · rw [if_pos he]
    constructor
    · intro p hp x hx
      exact hA _ (List.mem_of_mem_filter hp) x hx
    · intro p hp
      exact hB _ (List.mem_of_mem_filter hp)
  · rw [if_neg he]
    constructor
    · intro p hp x hx
      show registryHas s x
      rcases List.mem_cons.mp hp with rfl | hp'
      · have hx' : x ∈ membersOf s r := (List.mem_filter.mp hx).1
        obtain ⟨m, hm, hxm⟩ := mem_membersOf hx'
        exact hA _ hm x hxm
      · exact hA _ (List.mem_of_mem_filter hp') x hx
    · intro p hp
      rcases List.mem_cons.mp hp with rfl | hp'
      · simpa using he
      · exact hB _ (List.mem_of_mem_filter hp')

theorem inv_applyOp {s : GatewayState} (h : Inv s) (op : Op) :
    Inv (applyOp s op) := by
  cases op with
  | register c i => exact inv_register h c i
  | unregister c => exact inv_unregister h c
  | join r c =>
    show Inv (if (assocFind s.registry c).isSome then (join s r c).1 else s)
    by_cases hc : (assocFind s.registry c).isSome
    · rw [if_pos hc]; exact inv_join h r c hc
    · rw [if_neg hc]; exact h
  | leave r c => exact inv_leave h r c

theorem inv_initState : Inv initState := by
  constructor <;> intro p hp <;> simp [initState] at hp

theorem inv_foldl (ops : List Op) {s : GatewayState} (h : Inv s) :
    Inv (ops.foldl applyOp s) := by
  induction ops generalizing s with
  | nil => exact h
  | cons op t ih => exact ih (inv_applyOp h op)

theorem inv_run (ops : List Op) : Inv (run ops) :=
  inv_foldl ops inv_initState

end Gateway



namespace Gateway

/-- **C1.**  Throughout every sequence of Connection Registry and Room
Index operations (register, unregister, join, leave) run from the empty
gateway state, `membersOf(roomKey)` contains only connection ids currently
present in the Connection Registry, and a room's index entry is deleted
exactly when its member set becomes empty: the index holds no entry for the
room if and only if `membersOf` of that room is the empty set, so no empty
entry is ever retained. -/
theorem C1_room_index_registry_invariant (ops : List Op) (r : RoomKey) :
    (∀ c ∈ membersOf (run ops) r, registryHas (run ops) c) ∧
    (assocFind (run ops).rooms r = none ↔ membersOf (run ops) r = []) := by
  have h := inv_run ops
  constructor
  · intro c hc
    obtain ⟨m, hm, hcm⟩ := mem_membersOf hc
    exact h.1 _ hm c hcm
  · constructor
    · intro hn
      unfold membersOf
      rw [hn]
      rfl
    · intro he
      cases hf : assocFind (run ops).rooms r with
      | none => rfl
      | some m =>
        have hm : m = [] := by
          unfold membersOf at he
          rw [hf] at he
          simpa using he
        have hne := h.2 (r, m) (assocFind_mem hf)
        rw [hm] at hne
        exact absurd rfl hne

/-- Witness for C1: after two registrations and two joins, the invariant's
conclusions hold at the (occupied) room `channel:general`. -/
theorem C1_witness :
    "c1" ∈ membersOf (run demoOps) "channel:general" ∧
    registryHas (run demoOps) "c1" ∧
    (assocFind (run demoOps).rooms "channel:general" = none ↔
      membersOf (run demoOps) "channel:general" = []) := by
  have h := C1_room_index_registry_invariant demoOps "channel:general"
  have hm : "c1" ∈ membersOf (run demoOps) "channel:general" := by decide
  exact ⟨hm, h.1 "c1" hm, h.2⟩

/-- **C2.**  For every roomKey and connectionId, `join` returns the set of
connection ids subscribed to the room immediately before the call (the
empty set when the room entry did not exist), and afterwards `membersOf`
of the room equals that previous set plus the joining connection id. -/
theorem C2_join_previous_occupants (s : GatewayState) (r : RoomKey)
    (c : ConnId) :
    (join s r c).2 = membersOf s r ∧
    ∀ x, x ∈ membersOf (join s r c).1 r ↔ (x ∈ membersOf s r ∨ x = c) := by
  constructor
  · rfl
  · intro x
    have hmem : membersOf (join s r c).1 r =
        joinMembers (membersOf s r) c := by
      unfold membersOf
      have hf : assocFind (join s r c).1.rooms r =
          some (joinMembers (membersOf s r) c) := by
        show assocFind ((r, joinMembers (membersOf s r) c) ::
          s.rooms.filter (fun p => p.1 ≠ r)) r = _
        rw [assocFind_cons, if_pos rfl]
      rw [hf]
      rfl
    rw [hmem]
    unfold joinMembers
    by_cases hcp : c ∈ membersOf s r
    · rw [if_pos hcp]
      constructor
      · exact Or.inl
      · intro hx
        rcases hx with hx | rfl
        · exact hx
        · exact hcp
    · rw [if_neg hcp, List.mem_cons]
      constructor
      · intro hx
        rcases hx with rfl | hx
        · exact Or.inr rfl
        · exact Or.inl hx
      · intro hx
        rcases hx with hx | rfl
        · exact Or.inr hx
        · exact Or.inl rfl

/-- **C5.**  The DM room key is order-independent: the key computed for
`(a, b)` equals the key computed for `(b, a)`, because the two user ids are
sorted into `dm:{sortedUserIdA}:{sortedUserIdB}` before the key is
assembled, so both participants of a direct-message conversation subscribe
to the same room. -/
theorem C5_dmKey_order_independent (a b : UserId) : dmKey a b = dmKey b a := by
  unfold dmKey
  rcases le_total a b with h | h
  · by_cases h2 : b ≤ a
    · have he : a = b := le_antisymm h h2
      subst he
      rfl
    · rw [if_pos h, if_neg h2]
  · by_cases h2 : a ≤ b
    · have he : a = b := le_antisymm h2 h
      subst he
      rfl
    · rw [if_neg h2, if_pos h]

/-- **C6.**  For every roomKey, `onlineUsersInRoom` is the deduplicated set
of user ids obtained by mapping each connection id in `membersOf(roomKey)`
to its user id via the Connection Registry: its result has no duplicates, a
user id appears in it exactly when some connection in the room resolves to
that user, and a user connected from several devices is counted once. -/
theorem C6_onlineUsers_dedup_map (s : GatewayState) (r : RoomKey) :
    (onlineUsersInRoom s r).Nodup ∧
    (∀ u, u ∈ onlineUsersInRoom s r ↔
      ∃ c ∈ membersOf s r, userIdOf s c = some u) ∧
    (∀ u, u ∈ onlineUsersInRoom s r → (onlineUsersInRoom s r).count u = 1) := by
  refine ⟨List.nodup_dedup _, ?_, ?_⟩
  · intro u
    unfold onlineUsersInRoom
    rw [List.mem_dedup, List.mem_filterMap]
  · intro u hu
    exact List.count_eq_one_of_mem (List.nodup_dedup _) hu

/-- Witness for C6: alice is connected to `channel:general` from two
devices and appears exactly once in the presence list. -/
theorem C6_witness :
    "alice" ∈ onlineUsersInRoom demoState "channel:general" ∧
    (onlineUsersInRoom demoState "channel:general").count "alice" = 1 := by
  have h := C6_onlineUsers_dedup_map demoState "channel:general"
  have hm : "alice" ∈ onlineUsersInRoom demoState "channel:general" := by
    decide
  exact ⟨hm, h.2.2 "alice" hm⟩

/-- **C7.**  Relaying a signalling event to a target user id with zero
registered connections produces exactly one delivery — an `error` event to
the sender's connection — no delivery to any other connection, no queueing
of the signal, and an unchanged gateway state. -/
theorem C7_relay_target_offline (s : GatewayState) (senderConn : ConnId)
    (kind : String) (target : UserId) (payload : String)
    (h : connectionsForUser s target = []) :
    relaySignal s senderConn kind target payload =
      (s, [(senderConn, Event.error "Target user is offline")]) := by
  unfold relaySignal
  rw [h]
  rfl

/-- Witness for C7: charlie has no connection in `demoState`, so a relay
addressed to charlie yields exactly one error event to the sender and
leaves the state unchanged. -/
theorem C7_witness :
    connectionsForUser demoState "charlie" = [] ∧
    relaySignal demoState "c1" "webrtc_offer" "charlie" "sdp" =
      (demoState, [("c1", Event.error "Target user is offline")]) := by
  have h : connectionsForUser demoState "charlie" = [] := by decide
  exact ⟨h, C7_relay_target_offline demoState "c1" "webrtc_offer" "charlie"
    "sdp" h⟩

theorem map_fst_pair {α β : Type} (l : List α) (e : β) :
    (l.map (fun c => (c, e))).map Prod.fst = l := by
  induction l with
  | nil => rfl
  | cons a t ih => simp [ih]

/-- **C8.**  For every inbound chat message, failure of the external
`persistMessage` call does not change the broadcast: the recipient list is
exactly the same as when persistence succeeds (namely the room's member
connections), and every recipient still receives the message event carrying
the sent content — the broadcast is never rolled back. -/
theorem C8_persistence_failure_same_broadcast (s : GatewayState)
    (senderConn : ConnId) (room : RoomKey) (content mid ts : String) :
    ((handleChatMessage s senderConn room content .failed).map Prod.fst =
      (handleChatMessage s senderConn room content (.ok mid ts)).map
        Prod.fst) ∧
    ((handleChatMessage s senderConn room content .failed).map Prod.fst =
      membersOf s room) ∧
    (∀ d ∈ handleChatMessage s senderConn room content .failed,
      d.2 = Event.message none content ((userIdOf s senderConn).getD "")
        room none) := by
  refine ⟨?_, ?_, ?_⟩
  · simp only [handleChatMessage]
    rw [map_fst_pair, map_fst_pair]
  · simp only [handleChatMessage]
    rw [map_fst_pair]
  · intro d hd
    simp only [handleChatMessage, List.mem_map] at hd
    obtain ⟨c, _, heq⟩ := hd
    rw [← heq]

/-- Witness for C8: in `demoState` the broadcast on persistence failure
reaches the same connections as on success, bob's connection `c3` among
them, with the content intact. -/
theorem C8_witness :
    ((handleChatMessage demoState "c1" "channel:general" "hi" .failed).map
      Prod.fst =
      (handleChatMessage demoState "c1" "channel:general" "hi"
        (.ok "m1" "t1")).map Prod.fst) ∧
    ("c3", Event.message none "hi" "alice" "channel:general" none) ∈
      handleChatMessage demoState "c1" "channel:general" "hi" .failed ∧
    (("c3", Event.message none "hi" "alice" "channel:general" none) :
        ConnId × Event).2 =
      Event.message none "hi" ((userIdOf demoState "c1").getD "")
        "channel:general" none := by
  have h := C8_persistence_failure_same_broadcast demoState "c1"
    "channel:general" "hi" "m1" "t1"
  have hm : ("c3", Event.message none "hi" "alice" "channel:general" none) ∈
      handleChatMessage demoState "c1" "channel:general" "hi" .failed := by
    decide
  exact ⟨h.1, hm, h.2.2 _ hm⟩

/-- **C9.**  If authentication or authorization of a connection attempt
fails (`AuthRequired`: no token; `Unauthorized`: token rejected by the
verifier; `Forbidden`: access check refused), the attempt is closed with a
reason, no event is delivered to any connection, and the gateway state —
Connection Registry and Room Index — is exactly as it was before the
attempt: registration and join happen only after authorization succeeds. -/
theorem C9_auth_failure_no_partial_state (s : GatewayState) (c : ConnId)
    (token : Option String) (verify : String → Option UserId)
    (authorize : UserId → RoomKey → Bool) (room : RoomKey) (dn : String)
    (h : token = none ∨ (∃ t, token = some t ∧ verify t = none) ∨
      (∃ t u, token = some t ∧ verify t = some u ∧
        authorize u room = false)) :
    (handleConnect s c token verify authorize room dn).1 = s ∧
    (handleConnect s c token verify authorize room dn).2.1 = [] ∧
    (handleConnect s c token verify authorize room dn).2.2 ≠ none := by
  rcases h with rfl | ⟨t, rfl, hv⟩ | ⟨t, u, rfl, hv, ha⟩
  · refine ⟨rfl, rfl, ?_⟩
    simp [handleConnect]
  · refine ⟨?_, ?_, ?_⟩ <;> simp [handleConnect, hv]
  · refine ⟨?_, ?_, ?_⟩ <;> simp [handleConnect, hv, ha]

/-- Witness for C9: a connection attempt without a token against
`demoState` leaves the state unchanged, emits nothing, and closes with a
reason. -/
theorem C9_witness :
    (handleConnect demoState "c9" none (fun _ => none) (fun _ _ => false)
      "channel:general" "Dora").1 = demoState ∧
    (handleConnect demoState "c9" none (fun _ => none) (fun _ _ => false)
      "channel:general" "Dora").2.1 = [] ∧
    (handleConnect demoState "c9" none (fun _ => none) (fun _ _ => false)
      "channel:general" "Dora").2.2 ≠ none :=
  C9_auth_failure_no_partial_state demoState "c9" none (fun _ => none)
    (fun _ _ => false) "channel:general" "Dora" (Or.inl rfl)

end Gateway

namespace Frontend

/-- Counterexample to **C3** as stated: with an open socket in a DM
conversation context, `sendMessage` transmits a frame whose type
discriminator is `"dm_message"`, not `"message"`. -/
theorem C3_counterexample :
    (sendMessage dmHookState "hi").2 =
      some { type := "dm_message", content := "hi" } ∧
    ({ type := "dm_message", content := "hi" } : ChatFrame) ≠
      { type := "message", content := "hi" } := by
  decide

/-- **C3 (amended).**  For every chat message sent over an open socket, the
frame transmitted to the gateway is the JSON object
`{type: "message", content: <the text>}` in a channel (or absent)
conversation context, while in a DM conversation context the type
discriminator is instead `"dm_message"` (with the same `content` field). -/
theorem C3_chat_frame_type (st : HookState) (w : WSRef) (content : String)
    (hw : st.ws = some w) (ho : w.readyState = ReadyState.opened) :
    (st.context.map WebSocketContext.type = some CtxType.dm ∧
      (sendMessage st content).2 =
        some { type := "dm_message", content := content }) ∨
    (st.context.map WebSocketContext.type ≠ some CtxType.dm ∧
      (sendMessage st content).2 =
        some { type := "message", content := content }) := by
  by_cases hd : st.context.map WebSocketContext.type = some CtxType.dm
  · exact Or.inl ⟨hd, by simp [sendMessage, hw, ho, hd]⟩
  · exact Or.inr ⟨hd, by simp [sendMessage, hw, ho, hd]⟩

/-- Witness for the amended C3: in a channel context the transmitted frame
is `{type: "message", content: "hi"}`. -/
theorem C3_witness :
    (sendMessage channelHookState "hi").2 =
      some { type := "message", content := "hi" } := by
  have h := C3_chat_frame_type channelHookState ⟨ReadyState.opened⟩ "hi"
    rfl rfl
  rcases h with ⟨hd, _⟩ | ⟨_, he⟩
  · exact absurd hd (by decide)
  · exact he

/-- **C4** evaluated at the failing input: the call-signalling frames built
by `VideoCallView` and transmitted verbatim by the hook's `sendSignal` are
JSON objects with keys `type`, `senderId`, `targetId`, `data` — none of the
three signal kinds carries a `target_user_id` field, contradicting the
protocol documented in `src/backend/PHASE3_COMPLETE.md` (client → server
`webrtc_*` frames carry `target_user_id: string`). -/
theorem C4_signal_frame_missing_target_user_id :
    (sendSignal channelHookState (videoCallSendOffer "user-b" "offer-sdp")).2 =
      some [("type", "webrtc_offer"), ("senderId", "current_user"),
            ("targetId", "user-b"), ("data", "offer-sdp")] ∧
    ¬ ("target_user_id" ∈
        (videoCallSendOffer "user-b" "offer-sdp").toJson.map Prod.fst) ∧
    ¬ ("target_user_id" ∈
        (videoCallSendAnswer "user-b" "answer-sdp").toJson.map Prod.fst) ∧
    ¬ ("target_user_id" ∈
        (videoCallSendIceCandidate "user-b" "cand").toJson.map Prod.fst) := by
  decide

/-- **C10.**  Calling `sendMessage` of the `useWebSocket` hook, or the
WebRTC signal sender it registers, while the underlying WebSocket is absent
or not in the `OPEN` state transmits no frame and leaves the hook's
observable state (the `messages` list and the `isConnected` flag)
unchanged; both senders are total functions of the hook state (the
not-connected path only logs), so no exception is thrown. -/
theorem C10_send_noop_when_not_open (st : HookState) (content : String)
    (signal : WebRTCSignal)
    (h : st.ws = none ∨
      ∃ w, st.ws = some w ∧ w.readyState ≠ ReadyState.opened) :
    sendMessage st content = (st, none) ∧
    sendSignal st signal = (st, none) := by
  rcases h with h | ⟨w, hw, ho⟩
  · constructor <;> simp [sendMessage, sendSignal, h]
  · constructor <;> simp [sendMessage, sendSignal, hw, ho]

/-- Witness for C10: with a `CLOSED` socket neither sender transmits a frame
and the hook state is unchanged. -/
theorem C10_witness :
    sendMessage closedHookState "hi" = (closedHookState, none) ∧
    sendSignal closedHookState (videoCallSendOffer "u" "d") =
      (closedHookState, none) :=
  C10_send_noop_when_not_open closedHookState "hi"
    (videoCallSendOffer "u" "d")
    (Or.inr ⟨⟨ReadyState.closed⟩, rfl, by decide⟩)

end Frontend
